import Mathlib

/-!
# CourseLens — verification of the routing / slot-filling / dispatch-cache core

Shallow embedding of the Python source:
* `src/instructor_agent.py` — `InstructorAgentHandler.handle_query` and
  `_search_and_analyze` (the slot-filling dialogue manager);
* `src/root_agent.py` — `RootAgent.route_query`, `RootAgent.execute`,
  `RootAgent._wait_for_rate_limit`, `CourseAgentWrapper.handle_query`;
* `src/course_agent.py` — `UniversalCourseAgent.ask`,
  `UniversalCourseAgent._wait_for_rate_limit`.

Python `None`-or-string values are modelled as `Option String`; Python
truthiness of such a value (`if x:`) is `truthyS`.  Python dicts carrying
scraped data are modelled as association lists `PyDict`; lookup takes the
first matching key.  The two external gateways (LLM and scraper) are passed
in as explicit arguments: the LLM gateway as an `Except String String`
(an `.error` models a raised exception, whose message is `str(e)`), the
scraper as a function `String → Option PyDict` (`none` models a falsy
result).  JSON parsing of the classifier response is modelled as an
arbitrary parameter `parse : String → Option RoutingDecision`, `none`
modelling `json.JSONDecodeError`.
-/

/-- Python truthiness of an optional string: `None` and `""` are falsy. -/
def truthyS : Option String → Bool
  | none => false
  | some s => s != ""

/-! ## Slot-filling dialogue manager (`src/instructor_agent.py`) -/

/-- The conversation state of `InstructorAgentHandler`:
`pending_professor`, `pending_university`, `pending_question`. -/
structure HandlerState where
  pending_professor : Option String
  pending_university : Option String
  pending_question : Option String
deriving DecidableEq, Repr

/-- Outcome of one call to `InstructorAgentHandler.handle_query`:
either a dispatch to `_search_and_analyze` (carrying the arguments of that
call) or one of the clarifying-question returns. -/
inductive HandlerOutcome where
  | dispatched (professor question university : Option String)
  | askBoth
  | askUniversity (professor question : Option String)
  | askProfessor (university question : Option String)
deriving DecidableEq, Repr

/-- The merge block of `handle_query` (lines 196–200): when a pending
question exists, a newly supplied value fills a pending slot only when that
slot is not already (truthily) filled. -/
def mergeSlots (st : HandlerState) (professor_name university : Option String) :
    HandlerState :=
  if truthyS st.pending_question then
    { st with
      pending_professor :=
        if truthyS professor_name && !truthyS st.pending_professor then
          professor_name
        else st.pending_professor,
      pending_university :=
        if truthyS university && !truthyS st.pending_university then
          university
        else st.pending_university }
  else st

/-- The "Extract information from current query" section of `handle_query`
(lines 206–225), operating on the post-merge state. -/
def handleFresh (st : HandlerState) (professor_name question university : Option String) :
    HandlerOutcome × HandlerState :=
  if !truthyS professor_name && !truthyS university then
    (HandlerOutcome.askBoth, { st with pending_question := question })
  else if truthyS professor_name && !truthyS university then
    (HandlerOutcome.askUniversity professor_name question,
     { st with pending_professor := professor_name, pending_question := question })
  else if truthyS university && !truthyS professor_name then
    (HandlerOutcome.askProfessor university question,
     { st with pending_university := university, pending_question := question })
  else
    (HandlerOutcome.dispatched professor_name question university,
     ⟨none, none, none⟩)

/-- `InstructorAgentHandler.handle_query`.  A dispatch runs
`_search_and_analyze`, which clears all three pending fields to `None`
before analysing, so the post-state of a dispatch is all-`none`. -/
def handle_query (st : HandlerState)
    (professor_name question university : Option String) :
    HandlerOutcome × HandlerState :=
  let st1 := mergeSlots st professor_name university
  if truthyS st.pending_question &&
      truthyS st1.pending_professor && truthyS st1.pending_university then
    (HandlerOutcome.dispatched st1.pending_professor st1.pending_question
        st1.pending_university,
     ⟨none, none, none⟩)
  else
    handleFresh st1 professor_name question university

/-! ## Rate limiter (`_wait_for_rate_limit`, identical in the three agents) -/

/-- `min_request_interval = 12` (seconds), as set in `RootAgent`,
`InstructorAgent` and `UniversalCourseAgent`. -/
def min_request_interval : Nat := 12

/-- `_wait_for_rate_limit`: given this component's `last_request_time` and
the current wall-clock time, returns the time at which the gateway call
actually proceeds (after any sleep) and the new `last_request_time`. -/
def wait_for_rate_limit (last now : Nat) : Nat × Nat :=
  let time_since_last := now - last
  if time_since_last < min_request_interval then
    let t := now + (min_request_interval - time_since_last)
    (t, t)
  else
    (now, now)

/-- The three components that each construct their own rate limiter:
`RootAgent`, `InstructorAgent`, `UniversalCourseAgent`. -/
inductive Component where
  | root
  | instructor
  | course
deriving DecidableEq, Repr

/-- The per-instance `last_request_time` fields of the three components.
Each is initialised to `0` in the respective `__init__`. -/
structure LimiterStates where
  root_last : Nat
  instructor_last : Nat
  course_last : Nat
deriving DecidableEq, Repr

/-- One gateway call issued by a component at wall-clock time `now`: the
component consults only its own `_wait_for_rate_limit` (its own
`last_request_time` field) before the call.  Returns the time at which the
gateway call proceeds, and the updated limiter states. -/
def componentCall (s : LimiterStates) (c : Component) (now : Nat) :
    Nat × LimiterStates :=
  match c with
  | Component.root =>
      let r := wait_for_rate_limit s.root_last now
      (r.1, { s with root_last := r.2 })
  | Component.instructor =>
      let r := wait_for_rate_limit s.instructor_last now
      (r.1, { s with instructor_last := r.2 })
  | Component.course =>
      let r := wait_for_rate_limit s.course_last now
      (r.1, { s with course_last := r.2 })

/-- Run a sequence of gateway calls, each tagged with the issuing component
and its wall-clock issue time; returns the times at which the gateway calls
actually proceed. -/
def runCalls (s : LimiterStates) : List (Component × Nat) → List Nat
  | [] => []
  | (c, now) :: rest =>
      let r := componentCall s c now
      r.1 :: runCalls r.2 rest

/-! ## Routing coordinator (`RootAgent.route_query` / `RootAgent.execute`) -/

/-- The decision dictionary produced by `route_query`.  `agent_to_call` and
`direct_response` model dict entries that may be absent (`none` = key
absent) and, for `direct_response`, present-but-`None` (`some none`).
`parameters` models the parameters dict with possibly-null values. -/
structure RoutingDecision where
  reasoning : String
  agent_to_call : Option String
  parameters : List (String × Option String)
  direct_response : Option (Option String)
deriving DecidableEq, Repr

/-- The markdown code-fence cleanup in `route_query` (lines 208–214):
strip, then remove ```json / ``` wrappers if present. -/
def stripFences (s : String) : String :=
  let t := s.trim
  if t.startsWith "```json" then
    ((t.replace "```json" "").replace "```" "").trim
  else if t.startsWith "```" then
    (t.replace "```" "").trim
  else t

/-- The deterministic fallback decision returned by `route_query` when the
classifier response fails to parse as JSON (the `json.JSONDecodeError`
branch, lines 220–229). -/
def fallbackDecision (user_query : String) : RoutingDecision :=
  { reasoning := "Fallback routing"
    agent_to_call := some "CourseAgent"
    parameters := [("question", some user_query)]
    direct_response := some none }

/-- The decision returned by `route_query` on any other exception `e`
(lines 230–236). -/
def errorDecision (e : String) : RoutingDecision :=
  { reasoning := "Error: " ++ e
    agent_to_call := some "none"
    parameters := []
    direct_response := some (some ("I encountered an error: " ++ e)) }

/-- `RootAgent.route_query`: call the classifier gateway, clean code
fences, parse JSON; on parse failure return the fallback decision, on a
gateway exception return the error decision.  Totality of this function is
the model of "never raises to the caller". -/
def route_query (parse : String → Option RoutingDecision)
    (user_query : String) (gateway : Except String String) : RoutingDecision :=
  match gateway with
  | Except.error e => errorDecision e
  | Except.ok text =>
      match parse (stripFences text) with
      | some d => d
      | none => fallbackDecision user_query

/-- The static fallback string used by `RootAgent.execute` as the *default*
of `decision.get('direct_response', ...)` — returned only when the
`direct_response` key is absent from the decision dict. -/
def staticFallback : String :=
  "I'm not sure how to help with that. Try asking about a specific course."

/-- The dispatch part of `RootAgent.execute` (lines 255–285), given an
already-computed routing decision.  `registered` is the list of registered
sub-agent names; `handler` models calling the chosen agent's
`handle_query(**params)` (`.error e` models a raised exception).  The
result is the Python value bound to `response`: `none` models Python
`None` (which `execute` can return when `direct_response` is present but
null). -/
def execute (registered : List String)
    (handler : String → List (String × Option String) → Except String String)
    (decision : RoutingDecision) : Option String :=
  let agent_name := decision.agent_to_call.getD "none"
  if agent_name == "none" || !(registered.contains agent_name) then
    match decision.direct_response with
    | none => some staticFallback
    | some v => v
  else
    match handler agent_name decision.parameters with
    | Except.ok r => some r
    | Except.error e => some ("Error calling " ++ agent_name ++ ": " ++ e)

/-! ## Dispatch/cache layer (`CourseAgentWrapper.handle_query`,
`UniversalCourseAgent.ask`) -/

/-- A Python dict of scraped data: association list, first key wins. -/
abbrev PyDict := List (String × String)

/-- Python `k in d` for a dict. -/
def dictHas (d : PyDict) (k : String) : Bool :=
  d.any (fun kv => kv.1 == k)

/-- Python `d[k]` for a dict (defaulting to `""`; the source only indexes
keys it has just tested with `in`). -/
def dictGet (d : PyDict) (k : String) : String :=
  match d.find? (fun kv => kv.1 == k) with
  | some kv => kv.2
  | none => ""

/-- Python truthiness of a scraped-data value: `None` and `{}` are falsy. -/
def truthyDict : Option PyDict → Bool
  | none => false
  | some d => !d.isEmpty

/-- Python `str.upper()` (per-character, ASCII-faithful). -/
def strUpper (s : String) : String :=
  ⟨s.data.map Char.toUpper⟩

/-- Python `str.lower()` (per-character, ASCII-faithful). -/
def strLower (s : String) : String :=
  ⟨s.data.map Char.toLower⟩

/-- Substring search on character lists. -/
def listContainsSub (s pat : List Char) : Bool :=
  match s with
  | [] => pat.isEmpty
  | _ :: t => pat.isPrefixOf s || listContainsSub t pat

/-- Python substring test `pat in s`. -/
def strContains (s pat : String) : Bool :=
  listContainsSub s.data pat.data

/-- The coordinator's `course_cache`: normalized key ↦ scraped data. -/
abbrev PyCache := List (String × PyDict)

/-- Cache lookup (`key in cache` / `cache[key]` combined). -/
def cacheLookup (cache : PyCache) (k : String) : Option PyDict :=
  match cache.find? (fun kv => kv.1 == k) with
  | some kv => some kv.2
  | none => none

/-- Cache write `cache[key] = data` (first-match lookup makes cons shadow
any older binding, as dict assignment does). -/
def cacheInsert (cache : PyCache) (k : String) (d : PyDict) : PyCache :=
  (k, d) :: cache

/-- The cache-key normalization used by `CourseAgentWrapper.handle_query`:
`course_code.upper()`. -/
def cacheKey (course_code : String) : String :=
  strUpper course_code

/-- `UniversalCourseAgent.ask`: answer a question about scraped data.
Returns the answer string and whether the LLM gateway was called.
`gateway` is the outcome of `client.models.generate_content` (`.error e`
models a raised exception with `str(e) = e`). -/
def ask (question : String) (course_data : Option PyDict)
    (gateway : Except String String) : String × Bool :=
  if !truthyDict course_data then
    ("No course data available. Please scrape a course first.", false)
  else
    let d := course_data.getD []
    if dictHas d "error" then
      ("Error: " ++ dictGet d "error" ++
        "\n\nPlease check the university key and course code.", false)
    else
      match gateway with
      | Except.ok text => (text, true)
      | Except.error e =>
          if strContains e "429" || strContains (strLower e) "quota" then
            ("⚠️ Rate limit exceeded. Wait 1 minute and try again.", true)
          else
            ("Error: " ++ e, true)

/-- Result of one `CourseAgentWrapper.handle_query` call: the response
string, the coordinator cache afterwards, whether the scraper gateway was
called, whether the LLM gateway was called, and the course-data value that
was passed to `ask` (`none` when the guard rejected the call). -/
structure WrapperResult where
  response : String
  cache' : PyCache
  scraper_called : Bool
  llm_called : Bool
  data_used : Option (Option PyDict)
deriving DecidableEq, Repr

/-- `CourseAgentWrapper.handle_query`: guard missing parameters, consult
the coordinator cache under the upper-cased key, scrape on a miss, cache
only successful (truthy and error-free) scrapes, then answer via `ask`. -/
def wrapper_handle_query (scraper : String → Option PyDict)
    (gateway : Except String String) (cache : PyCache)
    (course_code question : Option String) : WrapperResult :=
  if !truthyS course_code || !truthyS question then
    { response := "Error: course_code and question are required"
      cache' := cache
      scraper_called := false
      llm_called := false
      data_used := none }
  else
    let code := course_code.getD ""
    let q := question.getD ""
    match cacheLookup cache (cacheKey code) with
    | some data =>
        let r := ask q (some data) gateway
        { response := r.1
          cache' := cache
          scraper_called := false
          llm_called := r.2
          data_used := some (some data) }
    | none =>
        let data := scraper code
        let cache1 :=
          if truthyDict data && !dictHas (data.getD []) "error" then
            cacheInsert cache (cacheKey code) (data.getD [])
          else cache
        let r := ask q data gateway
        { response := r.1
          cache' := cache1
          scraper_called := true
          llm_called := r.2
          data_used := some data }

/-! ## Theorems -/

/-- A truthy optional string is in particular non-null. -/
theorem truthyS_ne_none {x : Option String} (h : truthyS x = true) : x ≠ none := by
  cases x <;> simp [truthyS] at h ⊢

/-- **C1.** For every call to the instructor slot-filling handler, whenever
the call dispatches to the instructor analysis flow (`_search_and_analyze`),
both the professor-name value and the university value of the dispatch are
truthy — in particular non-null — and the pending state
(`pending_professor`, `pending_university`, `pending_question`) is reset to
all-null by that same call. -/
theorem c1_dispatch_requires_both_slots_and_resets
    (st : HandlerState) (pn q un p qq u : Option String) (st' : HandlerState)
    (h : handle_query st pn q un = (HandlerOutcome.dispatched p qq u, st')) :
    truthyS p = true ∧ truthyS u = true ∧ p ≠ none ∧ u ≠ none ∧
    st' = ⟨none, none, none⟩ := by
  simp only [handle_query] at h
  split at h
  case isTrue hcond =>
    simp only [Prod.mk.injEq, HandlerOutcome.dispatched.injEq] at h
    obtain ⟨⟨hp, -, hu⟩, hst⟩ := h
    simp only [Bool.and_eq_true] at hcond
    subst hp; subst hu; subst hst
    exact ⟨hcond.1.2, hcond.2, truthyS_ne_none hcond.1.2, truthyS_ne_none hcond.2, rfl⟩
  case isFalse hcond =>
    simp only [handleFresh] at h
    split at h
    · simp at h
    · split at h
      · simp at h
      · split at h
        · simp at h
        · next h1 h2 h3 =>
          simp only [Prod.mk.injEq, HandlerOutcome.dispatched.injEq] at h
          obtain ⟨⟨hp, -, hu⟩, hst⟩ := h
          subst hp; subst hu; subst hst
          have hpn : truthyS pn = true := by
            cases hb : truthyS pn <;> cases hb2 : truthyS un <;> simp_all
          have hun : truthyS un = true := by
            cases hb : truthyS pn <;> cases hb2 : truthyS un <;> simp_all
          exact ⟨hpn, hun, truthyS_ne_none hpn, truthyS_ne_none hun, rfl⟩

/-- Witness for C1: a first-turn query carrying both professor and
university dispatches immediately with both slots non-null and leaves the
pending state all-null. -/
theorem c1_witness :
    truthyS (some "Richard Sutton") = true ∧
    truthyS (some "University of Alberta") = true ∧
    (some "Richard Sutton" : Option String) ≠ none ∧
    (some "University of Alberta" : Option String) ≠ none ∧
    (⟨none, none, none⟩ : HandlerState) = ⟨none, none, none⟩ :=
  c1_dispatch_requires_both_slots_and_resets
    ⟨none, none, none⟩ (some "Richard Sutton") (some "How is he?")
    (some "University of Alberta") (some "Richard Sutton") (some "How is he?")
    (some "University of Alberta") ⟨none, none, none⟩ (by decide)

/-- **C2.** For every user query and every classifier response whose
(fence-stripped) text fails to parse as JSON, `route_query` returns the
deterministic fallback decision: agent `"CourseAgent"` with the raw user
query as the `"question"` parameter.  `route_query` is a total function, so
no exception reaches the caller. -/
theorem c2_parse_failure_falls_back_to_course_agent
    (parse : String → Option RoutingDecision) (user_query text : String)
    (h : parse (stripFences text) = none) :
    route_query parse user_query (Except.ok text) = fallbackDecision user_query ∧
    (route_query parse user_query (Except.ok text)).agent_to_call =
      some "CourseAgent" ∧
    (route_query parse user_query (Except.ok text)).parameters =
      [("question", some user_query)] := by
  simp [route_query, h, fallbackDecision]

/-- Witness for C2: a parser that always fails sends the query
`"tell me about cmput 174"` to the fallback decision. -/
theorem c2_witness :
    route_query (fun _ => none) "tell me about cmput 174" (Except.ok "oops") =
      fallbackDecision "tell me about cmput 174" ∧
    (route_query (fun _ => none) "tell me about cmput 174"
        (Except.ok "oops")).agent_to_call = some "CourseAgent" ∧
    (route_query (fun _ => none) "tell me about cmput 174"
        (Except.ok "oops")).parameters =
      [("question", some "tell me about cmput 174")] :=
  c2_parse_failure_falls_back_to_course_agent (fun _ => none)
    "tell me about cmput 174" "oops" rfl

/-- **C3 (counterexample).** The rate limiters are per-component instance
fields, not one process-wide limiter: starting from the initial limiter
states, a `RootAgent` gateway call issued at time 100 proceeds at 100, and
an `InstructorAgent` gateway call issued at time 101 proceeds at 101 —
two consecutive gateway calls separated by 1 < 12 time units, refuting the
claim that any two consecutive gateway calls are separated by at least the
configured cooldown. -/
theorem c3_counterexample :
    runCalls ⟨0, 0, 0⟩ [(Component.root, 100), (Component.instructor, 101)] =
      [100, 101] ∧
    ¬ (min_request_interval ≤ 101 - 100) := by decide

/-- **C3 (amended).** Each of the three components has its own rate
limiter guarding its own gateway calls; for a single component's limiter,
whenever `_wait_for_rate_limit` runs at a time `now` not earlier than that
component's `last_request_time`, the gateway call proceeds at least
`min_request_interval` (12) time units after that component's previous
gateway call, and the recorded `last_request_time` is the proceed time. -/
theorem c3_amended_per_component_cooldown (last now : Nat) (h : last ≤ now) :
    min_request_interval ≤ (wait_for_rate_limit last now).1 - last ∧
    (wait_for_rate_limit last now).2 = (wait_for_rate_limit last now).1 := by
  simp only [wait_for_rate_limit, min_request_interval]
  split
  · exact ⟨by omega, rfl⟩
  · next hge => exact ⟨by omega, rfl⟩

/-- Witness for C3 (amended): a call at time 5 with previous call at time 0
proceeds at time 12, exactly one cooldown later. -/
theorem c3_amended_witness :
    min_request_interval ≤ (wait_for_rate_limit 0 5).1 - 0 ∧
    (wait_for_rate_limit 0 5).2 = (wait_for_rate_limit 0 5).1 :=
  c3_amended_per_component_cooldown 0 5 (by decide)

/-- Inserting under a key and looking that key up returns the inserted
data. -/
theorem cacheLookup_cacheInsert (cache : PyCache) (k : String) (d : PyDict) :
    cacheLookup (cacheInsert cache k d) k = some d := by
  simp [cacheLookup, cacheInsert, List.find?]

/-- `CourseAgentWrapper.handle_query` on a cache hit: no scrape, cache
unchanged, the cached data is what `ask` receives. -/
theorem wrapper_hit (scraper : String → Option PyDict)
    (gateway : Except String String) (cache : PyCache) (c q : String)
    (data : PyDict) (hc : c ≠ "") (hq : q ≠ "")
    (hhit : cacheLookup cache (cacheKey c) = some data) :
    wrapper_handle_query scraper gateway cache (some c) (some q) =
      { response := (ask q (some data) gateway).1
        cache' := cache
        scraper_called := false
        llm_called := (ask q (some data) gateway).2
        data_used := some (some data) } := by
  have htc : truthyS (some c) = true := by simp [truthyS, hc]
  have htq : truthyS (some q) = true := by simp [truthyS, hq]
  simp [wrapper_handle_query, htc, htq, hhit]

/-- `CourseAgentWrapper.handle_query` on a cache miss whose scrape
succeeds (truthy, no error marker): one scrape, and the result is cached
under the normalized key. -/
theorem wrapper_miss_success (scraper : String → Option PyDict)
    (gateway : Except String String) (cache : PyCache) (c q : String)
    (d : PyDict) (hc : c ≠ "") (hq : q ≠ "")
    (hmiss : cacheLookup cache (cacheKey c) = none)
    (hd : scraper c = some d) (hne : d.isEmpty = false)
    (herr : dictHas d "error" = false) :
    wrapper_handle_query scraper gateway cache (some c) (some q) =
      { response := (ask q (some d) gateway).1
        cache' := cacheInsert cache (cacheKey c) d
        scraper_called := true
        llm_called := (ask q (some d) gateway).2
        data_used := some (some d) } := by
  have htc : truthyS (some c) = true := by simp [truthyS, hc]
  have htq : truthyS (some q) = true := by simp [truthyS, hq]
  simp [wrapper_handle_query, htc, htq, hmiss, hd, truthyDict, hne, herr]

/-- `CourseAgentWrapper.handle_query` on a cache miss whose scrape returns
an error-flagged dict: one scrape, no cache write. -/
theorem wrapper_miss_error (scraper : String → Option PyDict)
    (gateway : Except String String) (cache : PyCache) (c q : String)
    (d : PyDict) (hc : c ≠ "") (hq : q ≠ "")
    (hmiss : cacheLookup cache (cacheKey c) = none)
    (hd : scraper c = some d) (herr : dictHas d "error" = true) :
    wrapper_handle_query scraper gateway cache (some c) (some q) =
      { response := (ask q (some d) gateway).1
        cache' := cache
        scraper_called := true
        llm_called := (ask q (some d) gateway).2
        data_used := some (some d) } := by
  have htc : truthyS (some c) = true := by simp [truthyS, hc]
  have htq : truthyS (some q) = true := by simp [truthyS, hq]
  simp [wrapper_handle_query, htc, htq, hmiss, hd, herr]

/-- **C4 (counterexample).** With a scraper that returns an error-flagged
structure for `"CMPUT 174"`, two successive calls of the wrapper with the
same identifier both call the Scraper Gateway: the error result is not
cached, so the second call is not a cache hit, refuting "at most one
Scraper Gateway call — the second call is a cache hit" as universally
stated. -/
theorem c4_counterexample :
    (wrapper_handle_query (fun _ => some [("error", "boom")]) (Except.ok "ans")
      [] (some "CMPUT 174") (some "what is it?")).scraper_called = true ∧
    (wrapper_handle_query (fun _ => some [("error", "boom")]) (Except.ok "ans")
      (wrapper_handle_query (fun _ => some [("error", "boom")]) (Except.ok "ans")
        [] (some "CMPUT 174") (some "what is it?")).cache'
      (some "CMPUT 174") (some "what is it?")).scraper_called = true := by decide

/-- **C4 (amended).** For every identifier whose scrape yields a truthy,
error-free structure (and for every non-empty question), calling the
wrapper twice in succession with that identifier issues at most one
Scraper Gateway call: the second call is a cache hit (`scraper_called =
false`), it operates on the same data-structure contents as the first
call, and it leaves the cache unchanged. -/
theorem c4_amended_resolve_idempotent_on_success
    (scraper : String → Option PyDict) (gateway : Except String String)
    (cache : PyCache) (c q : String) (hc : c ≠ "") (hq : q ≠ "")
    (hs : truthyDict (scraper c) = true)
    (he : dictHas ((scraper c).getD []) "error" = false) :
    (wrapper_handle_query scraper gateway
        (wrapper_handle_query scraper gateway cache (some c) (some q)).cache'
        (some c) (some q)).scraper_called = false ∧
    (wrapper_handle_query scraper gateway
        (wrapper_handle_query scraper gateway cache (some c) (some q)).cache'
        (some c) (some q)).data_used =
      (wrapper_handle_query scraper gateway cache (some c) (some q)).data_used ∧
    (wrapper_handle_query scraper gateway
        (wrapper_handle_query scraper gateway cache (some c) (some q)).cache'
        (some c) (some q)).cache' =
      (wrapper_handle_query scraper gateway cache (some c) (some q)).cache' := by
  obtain ⟨d0, hd0⟩ : ∃ d, scraper c = some d := by
    cases hsc : scraper c
    · rw [hsc] at hs; simp [truthyDict] at hs
    · exact ⟨_, rfl⟩
  have hne : d0.isEmpty = false := by
    rw [hd0] at hs; simpa [truthyDict] using hs
  have herr : dictHas d0 "error" = false := by
    rw [hd0] at he; simpa using he
  cases hlook : cacheLookup cache (cacheKey c) with
  | some data =>
      have h1 := wrapper_hit scraper gateway cache c q data hc hq hlook
      rw [h1]
      rw [wrapper_hit scraper gateway cache c q data hc hq hlook]
      exact ⟨rfl, rfl, rfl⟩
  | none =>
      have h1 := wrapper_miss_success scraper gateway cache c q d0 hc hq hlook
        hd0 hne herr
      rw [h1]
      rw [wrapper_hit scraper gateway (cacheInsert cache (cacheKey c) d0) c q d0
        hc hq (cacheLookup_cacheInsert cache (cacheKey c) d0)]
      exact ⟨rfl, rfl, rfl⟩

/-- Witness for C4 (amended): a successful scrape of `"CMPUT 174"` is
cached, and the repeated call is a cache hit on the same data. -/
theorem c4_amended_witness :
    (wrapper_handle_query (fun _ => some [("title", "Intro CS")])
        (Except.ok "ans")
        (wrapper_handle_query (fun _ => some [("title", "Intro CS")])
          (Except.ok "ans") [] (some "CMPUT 174")
          (some "what is it?")).cache'
        (some "CMPUT 174") (some "what is it?")).scraper_called = false ∧
    (wrapper_handle_query (fun _ => some [("title", "Intro CS")])
        (Except.ok "ans")
        (wrapper_handle_query (fun _ => some [("title", "Intro CS")])
          (Except.ok "ans") [] (some "CMPUT 174")
          (some "what is it?")).cache'
        (some "CMPUT 174") (some "what is it?")).data_used =
      (wrapper_handle_query (fun _ => some [("title", "Intro CS")])
        (Except.ok "ans") [] (some "CMPUT 174")
        (some "what is it?")).data_used ∧
    (wrapper_handle_query (fun _ => some [("title", "Intro CS")])
        (Except.ok "ans")
        (wrapper_handle_query (fun _ => some [("title", "Intro CS")])
          (Except.ok "ans") [] (some "CMPUT 174")
          (some "what is it?")).cache'
        (some "CMPUT 174") (some "what is it?")).cache' =
      (wrapper_handle_query (fun _ => some [("title", "Intro CS")])
        (Except.ok "ans") [] (some "CMPUT 174")
        (some "what is it?")).cache' :=
  c4_amended_resolve_idempotent_on_success
    (fun _ => some [("title", "Intro CS")]) (Except.ok "ans") []
    "CMPUT 174" "what is it?" (by decide) (by decide) (by decide) (by decide)

/-- **C5 (counterexample).** With pending state
(`pending_professor = "X"`, `pending_university = None`,
`pending_question = "Q"`), a call supplying `professor_name = "Y"` and no
university does not dispatch (university still missing) and falls through
to the extraction branches, which set `pending_professor` to `"Y"` —
overwriting the already-filled pending slot, refuting "an already-filled
pending slot is never overwritten by a value from the incoming call". -/
theorem c5_counterexample :
    (handle_query ⟨some "X", none, some "Q"⟩ (some "Y") (some "Q2")
        none).2.pending_professor = some "Y" ∧
    (some "Y" : Option String) ≠ some "X" := by decide

/-- **C5 (amended).** The merge step itself (the `if self.pending_question`
block) never overwrites an already-filled pending slot: a newly supplied
value is stored only into a slot that is not yet truthily filled.  (When
the merged state is still incomplete, the handler then falls through to
fresh extraction, which may overwrite — as the counterexample shows.) -/
theorem c5_amended_merge_never_overwrites
    (st : HandlerState) (pn un : Option String) :
    (truthyS st.pending_professor = true →
      (mergeSlots st pn un).pending_professor = st.pending_professor) ∧
    (truthyS st.pending_university = true →
      (mergeSlots st pn un).pending_university = st.pending_university) := by
  unfold mergeSlots
  split
  · exact ⟨fun hp => by simp [hp], fun hu => by simp [hu]⟩
  · exact ⟨fun _ => rfl, fun _ => rfl⟩

/-- Witness for C5 (amended): with both pending slots filled, a call
supplying fresh values leaves `pending_professor` untouched by the merge
step; and in a university-only pending state (professor slot empty), the
filled `pending_university` is likewise preserved. -/
theorem c5_amended_witness :
    (mergeSlots ⟨some "X", some "U", some "Q"⟩ (some "Y")
        (some "V")).pending_professor = some "X" ∧
    (mergeSlots ⟨none, some "U", some "Q"⟩ (some "Y")
        (some "V")).pending_university = some "U" :=
  ⟨(c5_amended_merge_never_overwrites ⟨some "X", some "U", some "Q"⟩
      (some "Y") (some "V")).1 (by decide),
   (c5_amended_merge_never_overwrites ⟨none, some "U", some "Q"⟩
      (some "Y") (some "V")).2 (by decide)⟩

/-- **C6.** Cache keys are normalized by upper-casing, so lookups are
case-insensitive: the key for `"cmput 174"` equals the key for
`"CMPUT 174"`, and after resolving `"cmput 174"` (writing the cache), a
resolve of `"CMPUT 174"` is a cache hit (no scrape) on the very entry the
first call wrote. -/
theorem c6_cache_keys_case_insensitive
    (scraper : String → Option PyDict) (gateway : Except String String)
    (q : String) (hq : q ≠ "")
    (hs : truthyDict (scraper "cmput 174") = true)
    (he : dictHas ((scraper "cmput 174").getD []) "error" = false) :
    cacheKey "cmput 174" = cacheKey "CMPUT 174" ∧
    (wrapper_handle_query scraper gateway
        (wrapper_handle_query scraper gateway [] (some "cmput 174")
          (some q)).cache' (some "CMPUT 174") (some q)).scraper_called =
      false ∧
    (wrapper_handle_query scraper gateway
        (wrapper_handle_query scraper gateway [] (some "cmput 174")
          (some q)).cache' (some "CMPUT 174") (some q)).data_used =
      (wrapper_handle_query scraper gateway [] (some "cmput 174")
        (some q)).data_used := by
  obtain ⟨d0, hd0⟩ : ∃ d, scraper "cmput 174" = some d := by
    cases hsc : scraper "cmput 174"
    · rw [hsc] at hs; simp [truthyDict] at hs
    · exact ⟨_, rfl⟩
  have hne : d0.isEmpty = false := by
    rw [hd0] at hs; simpa [truthyDict] using hs
  have herr : dictHas d0 "error" = false := by
    rw [hd0] at he; simpa using he
  have hkeys : cacheKey "cmput 174" = cacheKey "CMPUT 174" := by decide
  have h1 := wrapper_miss_success scraper gateway [] "cmput 174" q d0
    (by decide) hq rfl hd0 hne herr
  rw [h1]
  have hlook2 : cacheLookup (cacheInsert [] (cacheKey "cmput 174") d0)
      (cacheKey "CMPUT 174") = some d0 := by
    rw [← hkeys]; exact cacheLookup_cacheInsert [] (cacheKey "cmput 174") d0
  rw [wrapper_hit scraper gateway (cacheInsert [] (cacheKey "cmput 174") d0)
    "CMPUT 174" q d0 (by decide) hq hlook2]
  exact ⟨hkeys, rfl, rfl⟩

/-- Witness for C6: concrete scraper and question. -/
theorem c6_witness :
    cacheKey "cmput 174" = cacheKey "CMPUT 174" ∧
    (wrapper_handle_query (fun _ => some [("title", "Intro CS")])
        (Except.ok "ans")
        (wrapper_handle_query (fun _ => some [("title", "Intro CS")])
          (Except.ok "ans") [] (some "cmput 174")
          (some "what is it?")).cache' (some "CMPUT 174")
        (some "what is it?")).scraper_called = false ∧
    (wrapper_handle_query (fun _ => some [("title", "Intro CS")])
        (Except.ok "ans")
        (wrapper_handle_query (fun _ => some [("title", "Intro CS")])
          (Except.ok "ans") [] (some "cmput 174")
          (some "what is it?")).cache' (some "CMPUT 174")
        (some "what is it?")).data_used =
      (wrapper_handle_query (fun _ => some [("title", "Intro CS")])
        (Except.ok "ans") [] (some "cmput 174")
        (some "what is it?")).data_used :=
  c6_cache_keys_case_insensitive (fun _ => some [("title", "Intro CS")])
    (Except.ok "ans") "what is it?" (by decide) (by decide) (by decide)

/-- **C7.** For every cache-miss scrape that returns an error-flagged
structure, the wrapper's final answer is the error explanation built from
the error marker, no cache entry is written, and the LLM gateway is not
called for answer generation. -/
theorem c7_error_scrape_error_answer_no_cache_no_llm
    (scraper : String → Option PyDict) (gateway : Except String String)
    (cache : PyCache) (c q : String) (d : PyDict)
    (hc : c ≠ "") (hq : q ≠ "")
    (hmiss : cacheLookup cache (cacheKey c) = none)
    (hscrape : scraper c = some d)
    (herr : dictHas d "error" = true) :
    (wrapper_handle_query scraper gateway cache (some c) (some q)).response =
      "Error: " ++ dictGet d "error" ++
        "\n\nPlease check the university key and course code." ∧
    (wrapper_handle_query scraper gateway cache (some c) (some q)).cache' =
      cache ∧
    (wrapper_handle_query scraper gateway cache (some c)
        (some q)).llm_called = false := by
  have h1 := wrapper_miss_error scraper gateway cache c q d hc hq hmiss
    hscrape herr
  rw [h1]
  have hd' : d.isEmpty = false := by
    cases d with
    | nil => simp [dictHas] at herr
    | cons a t => rfl
  have hask : ask q (some d) gateway =
      ("Error: " ++ dictGet d "error" ++
        "\n\nPlease check the university key and course code.", false) := by
    simp [ask, truthyDict, hd', herr]
  rw [hask]
  exact ⟨rfl, rfl, rfl⟩

/-- Witness for C7: a scrape of `"CMPUT 174"` that returns
`{"error": "boom"}`. -/
theorem c7_witness :
    (wrapper_handle_query (fun _ => some [("error", "boom")]) (Except.ok "ans")
        [] (some "CMPUT 174") (some "what is it?")).response =
      "Error: " ++ dictGet [("error", "boom")] "error" ++
        "\n\nPlease check the university key and course code." ∧
    (wrapper_handle_query (fun _ => some [("error", "boom")]) (Except.ok "ans")
        [] (some "CMPUT 174") (some "what is it?")).cache' = [] ∧
    (wrapper_handle_query (fun _ => some [("error", "boom")]) (Except.ok "ans")
        [] (some "CMPUT 174") (some "what is it?")).llm_called = false :=
  c7_error_scrape_error_answer_no_cache_no_llm
    (fun _ => some [("error", "boom")]) (Except.ok "ans") [] "CMPUT 174"
    "what is it?" [("error", "boom")] (by decide) (by decide) rfl rfl
    (by decide)

/-- **C8 (counterexample).** A decision with `agent_to_call = "none"` whose
`direct_response` key is present with the empty string: `execute` returns
the empty string verbatim, not the static fallback, because
`decision.get('direct_response', fallback)` substitutes the fallback only
when the key is absent — refuting "returns a static fallback string when
direct_response is empty". -/
theorem c8_counterexample :
    execute ["CourseAgent", "InstructorAgent"]
      (fun _ _ => Except.error "no handler")
      ⟨"reasoning", some "none", [], some (some "")⟩ = some "" ∧
    (some "" : Option String) ≠ some staticFallback := by decide

/-- **C8 (amended).** For every routing decision whose effective
`agent_to_call` is `"none"` or not a registered agent name, `execute`
returns the decision's `direct_response` value verbatim whenever that key
is present (even when it is the empty string or null), and returns the
static fallback string exactly when the `direct_response` key is absent. -/
theorem c8_amended_direct_branch
    (registered : List String)
    (handler : String → List (String × Option String) → Except String String)
    (d : RoutingDecision)
    (h : d.agent_to_call.getD "none" = "none" ∨
      registered.contains (d.agent_to_call.getD "none") = false) :
    (d.direct_response = none →
      execute registered handler d = some staticFallback) ∧
    (∀ v, d.direct_response = some v → execute registered handler d = v) := by
  have hcond : (d.agent_to_call.getD "none" == "none" ||
      !(registered.contains (d.agent_to_call.getD "none"))) = true := by
    rcases h with h | h
    · simp [h]
    · rw [h]; simp
  constructor
  · intro hdr
    simp only [execute]
    rw [if_pos hcond, hdr]
  · intro v hdr
    simp only [execute]
    rw [if_pos hcond, hdr]

/-- Witness for C8 (amended): a decision with agent `"none"` and no
`direct_response` key yields the static fallback. -/
theorem c8_amended_witness :
    ((⟨"reasoning", some "none", [], none⟩ : RoutingDecision).direct_response =
        none →
      execute ["CourseAgent"] (fun _ _ => Except.error "no handler")
        ⟨"reasoning", some "none", [], none⟩ = some staticFallback) ∧
    (∀ v, (⟨"reasoning", some "none", [], none⟩ :
        RoutingDecision).direct_response = some v →
      execute ["CourseAgent"] (fun _ _ => Except.error "no handler")
        ⟨"reasoning", some "none", [], none⟩ = v) :=
  c8_amended_direct_branch ["CourseAgent"] (fun _ _ => Except.error "no handler")
    ⟨"reasoning", some "none", [], none⟩ (Or.inl (by decide))

/-- **C9.** In the dispatch/cache layer's answer generation
(`UniversalCourseAgent.ask`), when the LLM gateway raises an exception
whose message is quota/rate-limit flavored (contains `"429"`, or contains
`"quota"` after lower-casing), the function returns the fixed
"wait 1 minute and try again" message, not the raw error text. -/
theorem c9_quota_failure_fixed_message
    (q : String) (d : PyDict) (e : String)
    (hd : d.isEmpty = false) (he : dictHas d "error" = false)
    (hq : strContains e "429" = true ∨ strContains (strLower e) "quota" = true) :
    (ask q (some d) (Except.error e)).1 =
      "⚠️ Rate limit exceeded. Wait 1 minute and try again." := by
  have hcond : (strContains e "429" || strContains (strLower e) "quota") =
      true := by
    rcases hq with h | h <;> simp [h]
  simp [ask, truthyDict, hd, he, hcond]

/-- Witness for C9: a `"429 Too Many Requests"` exception yields the fixed
retry message. -/
theorem c9_witness :
    (ask "what is it?" (some [("title", "Intro CS")])
        (Except.error "429 Too Many Requests")).1 =
      "⚠️ Rate limit exceeded. Wait 1 minute and try again." :=
  c9_quota_failure_fixed_message "what is it?" [("title", "Intro CS")]
    "429 Too Many Requests" (by decide) (by decide) (Or.inl (by decide))

/-- **C10.** For every call of the course-agent wrapper in which
`course_code` or `question` is missing (`None` or empty), the wrapper
returns the error string `"Error: course_code and question are required"`,
does not call the Scraper Gateway, writes nothing to the cache, and does
not call the LLM gateway. -/
theorem c10_missing_params_guard
    (scraper : String → Option PyDict) (gateway : Except String String)
    (cache : PyCache) (course_code question : Option String)
    (h : truthyS course_code = false ∨ truthyS question = false) :
    wrapper_handle_query scraper gateway cache course_code question =
      { response := "Error: course_code and question are required"
        cache' := cache
        scraper_called := false
        llm_called := false
        data_used := none } := by
  have hcond : (!truthyS course_code || !truthyS question) = true := by
    rcases h with h | h <;> simp [h]
  simp [wrapper_handle_query, hcond]

/-- Witness for C10: a call with `course_code = None`. -/
theorem c10_witness :
    wrapper_handle_query (fun _ => some [("title", "Intro CS")])
        (Except.ok "ans") [] none (some "what is it?") =
      { response := "Error: course_code and question are required"
        cache' := []
        scraper_called := false
        llm_called := false
        data_used := none } :=
  c10_missing_params_guard (fun _ => some [("title", "Intro CS")])
    (Except.ok "ans") [] none (some "what is it?") (Or.inl (by decide))
